import Mathlib

/-!
Verification of `clif/python/gen.py` (CLIF Python glue-code generator).

Each generator function of the source (a Python generator yielding source-code
lines) is embedded as a Lean function producing a `List String`.  Python
exceptions (assertion failures, `ValueError`, `TypeError`, `KeyError`,
`IndexError`) are modelled with `Except String`: an exception aborts generation
and no line list is produced (the source yields lines lazily, so a mid-stream
exception leaves a partial prefix with the consumer; no property below depends
on that prefix).  The module-global `PY3OUTPUT` is threaded as an explicit
argument where a function reads it.  String operations of Python
(`startswith`, `endswith`, `in`, `rstrip`, `split`, `join`, `*`) are given
small character-list based models below.
-/

/-- Python `sep.join(xs)`. -/
def joinSep (sep : String) : List String → String
  | [] => ""
  | [x] => x
  | x :: y :: xs => x ++ sep ++ joinSep sep (y :: xs)

/-- Python `s.startswith(pre)`. -/
def strStartsWith (s pre : String) : Bool :=
  pre.toList.isPrefixOf s.toList

/-- Python `s.endswith(suf)`. -/
def strEndsWith (s suf : String) : Bool :=
  suf.toList.reverse.isPrefixOf s.toList.reverse

def hasInfixAux (pat : List Char) : List Char → Bool
  | [] => pat.isEmpty
  | c :: rest => pat.isPrefixOf (c :: rest) || hasInfixAux pat rest

/-- Python `pat in s` (substring containment). -/
def containsSub (s pat : String) : Bool :=
  hasInfixAux pat.toList s.toList

/-- Python `s.rstrip('@')`. -/
def rstripAt (s : String) : String :=
  String.mk ((s.toList.reverse.dropWhile (fun c => c == '@')).reverse)

/-- Python `s[:-1]`. -/
def dropLastStr (s : String) : String :=
  String.mk s.toList.dropLast

/-- Python `c * n` for a one-character string. -/
def charRep (c : Char) (n : Nat) : String :=
  String.mk (List.replicate n c)

/-- Python `s.strip(':')`. -/
def stripColons (s : String) : String :=
  String.mk (((s.toList.dropWhile (fun c => c == ':')).reverse.dropWhile
    (fun c => c == ':')).reverse)

def splitNsAux : List Char → List Char → List String
  | acc, [] => [String.mk acc.reverse]
  | acc, ':' :: ':' :: rest => String.mk acc.reverse :: splitNsAux [] rest
  | acc, c :: rest => splitNsAux (c :: acc) rest

/-- Python `s.split('::')` (as used on namespace strings). -/
def splitNs (s : String) : List String :=
  splitNsAux [] s.toList

/-- gen.py: `VERSION = '0.2'`. -/
def VERSION : String := "0.2"

/-- gen.py: `I = '  '` (the indentation unit). -/
def I : String := "  "

/-! ## Data model: the AST records consumed by gen.py (clif AST protobuf). -/

/-- AST `Name` message: target-language and C++ spellings. -/
structure AstName where
  native : String
  cpp_name : String
deriving DecidableEq

/-- Modelled from the spec: the callable descriptor carried by a
function-valued parameter (external AST shape).  gen.py reads only its
`returns` list (for the output-parameter check) and hands the whole record to
the external formatter `astutils.StdFuncParamStr`; we keep the return and
parameter type spellings. -/
structure CallableSig where
  returns : List String
  params : List String
deriving DecidableEq

/-- AST `Type` message: the parameter/return type descriptor with the
capability flags gen.py branches on. -/
structure TypeSpec where
  lang_type : String
  cpp_type : String
  cpp_raw_pointer : Bool
  cpp_abstract : Bool
  cpp_has_def_ctor : Bool
  cpp_has_public_dtor : Bool
  cpp_toptr_conversion : Bool
  cpp_touniqptr_conversion : Bool
  callable : Option CallableSig
deriving DecidableEq

/-- AST `ParamDecl` message: a parameter or return-value descriptor.
`default_value = ""` models the absent (falsy) proto field. -/
structure ParamDecl where
  name : AstName
  type : TypeSpec
  default_value : String
deriving DecidableEq

/-- AST `FuncDecl` message (the fields gen.py reads).  `postproc = ""` models
the absent field; `cpp_void_return` is the flag the external formatter uses to
render a `void` return type. -/
structure FuncDecl where
  name : AstName
  params : List ParamDecl
  returns : List ParamDecl
  classmethod : Bool
  async : Bool
  postproc : String
  cpp_void_return : Bool
  cpp_const_method : Bool
  cpp_noexcept : Bool
deriving DecidableEq

/-! ## Modelled external collaborators (`astutils`, `postconv`).

These modules are not part of this repository slice; per the spec they are
"a formatter producing a parameter's string type rendering and a function's
declared return-type rendering from a descriptor", "a post-conversion
initializer function producing an initializer expression for a given return
descriptor and a type-to-index mapping", and "name-escaping/tuple-formatting
helpers for emitting literal argument lists". -/

/-- Modelled from the spec: `astutils.Type(p)` — the formatter producing a
parameter's string type rendering from a descriptor. -/
def TypeStr (p : ParamDecl) : String := p.type.cpp_type

/-- Modelled from the spec: `astutils.FuncReturnType(f)` — the formatter
producing a function's declared return-type rendering (`"void"` when the
native function returns nothing). -/
def FuncReturnType (f : FuncDecl) : String :=
  if f.cpp_void_return then "void"
  else match f.returns with
    | [] => "void"
    | r :: _ => r.type.cpp_type

/-- Modelled from the spec: `astutils.TupleStr(xs)` — the tuple-formatting
helper for emitting literal argument lists. -/
def TupleStr (xs : List String) : String :=
  "(" ++ joinSep ", " xs ++ ")"

/-- Modelled from the spec: `astutils.StdFuncParamStr(c)` — renders the
`std::function` template argument for a callable descriptor. -/
def StdFuncParamStr (c : CallableSig) : String :=
  (match c.returns with
    | [] => "void"
    | r :: _ => r) ++ " (" ++ joinSep ", " c.params ++ ")"

/-- Modelled from the spec: `astutils.FuncParamStr(f, 'a')` — renders the
parenthesized parameter list `(T0 a0, T1 a1, ...)` of an override signature. -/
def FuncParamStr (f : FuncDecl) (argName : String) : String :=
  TupleStr (f.params.enum.map
    (fun ip => ip.2.type.cpp_type ++ " " ++ argName ++ toString ip.1))

/-- Modelled from the spec: `astutils.FuncReturns(f)` — the type spellings of
the output-parameter returns (all returns when the native return is void, else
all but the first). -/
def FuncReturns (f : FuncDecl) : List String :=
  (if f.cpp_void_return then f.returns else f.returns.tail).map
    (fun r => r.type.cpp_type)

/-- Modelled from the spec: `postconv.Initializer(t, typepostconversion)` —
the post-conversion initializer collaborator, producing an initializer
expression for a return descriptor and a type-to-index mapping. -/
def Initializer (t : TypeSpec) (tpc : List (String × Nat)) : String :=
  match tpc.lookup t.lang_type with
  | some n => "postconv::GetFromTypeTable[" ++ toString n ++ "]"
  | none => "\x7b\x7d"

/-! ## gen.py `OpenNs` / `CloseNs` / `Headlines`. -/

/-- gen.py `OpenNs`. -/
def OpenNs (ns : String) : String :=
  let n := stripColons (if ns == "" then "clif" else ns)
  joinSep " " ((splitNs n).map (fun s => "namespace " ++ s ++ " \x7b"))

/-- gen.py `CloseNs`. -/
def CloseNs (ns : String) : String :=
  let n := stripColons (if ns == "" then "clif" else ns)
  joinSep "" (List.replicate (1 + ((splitNs n).length - 1)) "\x7d ")
    ++ " // namespace " ++ n

/-- The `#include`/forward-declare lines of `Headlines` for the user header
list (gen.py lines 65-71). -/
def hdrIncludeLines (python_h : Bool) (hs : List String) : List String :=
  hs.flatMap (fun h =>
    if h == "PYOBJ" && !python_h then
      ["",
       "// Forward \"declare\" PyObject (instead of #include <Python.h>)",
       "struct _object; typedef _object PyObject;"]
    else if h != "" then ["#include \"" ++ h ++ "\""]
    else [])

/-- The banner and system-include lines of `Headlines`. -/
def headBanner (src_file : String) (py3 : Option Bool) : List String :=
  [charRep '/' 70,
   "// This file was automatically generated by CLIF"
     ++ (match py3 with
          | none => ""
          | some b => " to run under Python " ++ (if b then "3" else "2")),
   "// Version " ++ VERSION,
   charRep '/' 70]
  ++ (if src_file != "" then ["// source: " ++ src_file] else [])
  ++ [""]

/-- gen.py `Headlines`.  The source is a generator that, when the first
element of (the caller's) `hdr_files` list is the sentinel `"PYTHON"`, executes
`del hdr_files[0]` while yielding lines.  The mutation of the caller's list is
made explicit: the result is `(yielded lines, final value of hdr_files)`. -/
def Headlines (src_file : String) (hdr_files sys_hdr_files : List String)
    (open_ns : String) (py3 : Option Bool) : List String × List String :=
  let sysLines := sys_hdr_files.flatMap
    (fun h => if h != "" then ["#include <" ++ h ++ ">"] else [])
  let nsLines := if open_ns != "" then ["", OpenNs open_ns] else []
  if hdr_files.head? = some "PYTHON" then
    (headBanner src_file py3 ++ ["#include <Python.h>"] ++ sysLines
      ++ hdrIncludeLines true hdr_files.tail ++ nsLines, hdr_files.tail)
  else
    (headBanner src_file py3 ++ sysLines
      ++ hdrIncludeLines false hdr_files ++ nsLines, hdr_files)

/-! ## gen.py `_CreateInputParameter`.

The source returns the declaration string for a C++ stack variable named
`arg` and appends one call-site getter expression to the accumulator `args`;
here the result is the pair `(declaration, appended getter)`.  A Python
`AssertionError` / `ValueError` / `TypeError` is `.error`. -/

def _CreateInputParameter (func_name : String) (ast_param : ParamDecl)
    (arg : String) : Except String (String × String) :=
  let ptype := ast_param.type
  let ctype := ptype.cpp_type
  let smartptr := strStartsWith ctype "::std::unique_ptr"
    || strStartsWith ctype "::std::shared_ptr"
  -- std::function special case
  if ctype == "" then
    match ptype.callable with
    | none => .error "Non-callable param has empty cpp_type"
    | some c =>
      if c.returns.length > 1 then
        .error ("Callbacks may not have any output parameters, "
          ++ func_name ++ " param " ++ ast_param.name.native ++ " has "
          ++ toString (c.returns.length - 1))
      else
        .ok ("std::function<" ++ StdFuncParamStr c ++ "> " ++ arg ++ ";",
             "std::move(" ++ arg ++ ")")
  -- T*
  else if ptype.cpp_raw_pointer then
    if ptype.cpp_toptr_conversion then
      .ok (ctype ++ " " ++ arg ++ ";", arg)
    else
      let t := dropLastStr ctype
      if strEndsWith ctype "*" then
        if ptype.cpp_abstract then
          if ptype.cpp_touniqptr_conversion then
            .ok ("::std::unique_ptr<" ++ t ++ "> " ++ arg ++ ";",
                 arg ++ ".get()")
          else
            .error ("Can't convert " ++ ptype.lang_type ++ " to " ++ ctype)
        else if ptype.cpp_has_public_dtor then
          -- Create a copy on stack and pass its address.
          if ptype.cpp_has_def_ctor then
            .ok (t ++ " " ++ arg ++ ";", "&" ++ arg)
          else
            .ok ("::gtl::optional<" ++ t ++ "> " ++ arg ++ ";",
                 "&" ++ arg ++ ".value()")
        else
          .error ("Can't convert " ++ ptype.lang_type ++ " to " ++ ctype)
      else
        .error ("Can't convert " ++ ptype.lang_type ++ " to " ++ ctype)
  else if (smartptr || ptype.cpp_abstract) && !ptype.cpp_touniqptr_conversion
  then
    .error ("Can't create \"" ++ ast_param.name.native
      ++ "\" variable (C++ type " ++ ctype ++ ") in function " ++ func_name
      ++ ", no valid conversion defined")
  -- unique_ptr<T>, shared_ptr<T>
  else if smartptr then
    .ok (ctype ++ " " ++ arg ++ ";", "std::move(" ++ arg ++ ")")
  -- T, [const] T&
  else if ptype.cpp_toptr_conversion then
    .ok (ctype ++ "* " ++ arg ++ ";", "*" ++ arg)
  else if ptype.cpp_abstract then  -- for AbstractType &
    .ok ("std::unique_ptr<" ++ ctype ++ "> " ++ arg ++ ";", "*" ++ arg)
  -- Create a copy on stack (even fot T&, most cases should have to_T* conv).
  else if ptype.cpp_has_def_ctor then
    .ok (ctype ++ " " ++ arg ++ ";", "std::move(" ++ arg ++ ")")
  else
    .ok ("::gtl::optional<" ++ ctype ++ "> " ++ arg ++ ";",
         arg ++ ".value()")

/-! ## gen.py `VirtualFunctionCall`. -/

/-- gen.py `VirtualFunctionCall`: the override redirecting a virtual call to a
Python implementation, falling back to `Py_FatalError` + `abort()` for
abstract methods and to the native default otherwise.  (`postconvinit` is
unused by the source body — see its TODO — and is omitted.) -/
def VirtualFunctionCall (fname : String) (f : FuncDecl) (pyname : String)
    (abstract : Bool) : List String :=
  let name := f.name.cpp_name
  let ret := FuncReturnType f
  let arg := FuncParamStr f "a"
  let mod := [""] ++ (if f.cpp_const_method then ["const"] else [])
    ++ (if f.cpp_noexcept then ["noexcept"] else [])
  let nmoved := f.params.length + f.returns.length
    - (if ret != "void" then 1 else 0)
  let params := TupleStr ((List.range nmoved).map
    (fun i => "std::move(a" ++ toString i ++ ")"))
  let ret_st := if ret != "void" then "return " else ""
  [""]
  ++ [I ++ ret ++ " " ++ fname ++ arg ++ joinSep " " mod ++ " override \x7b"]
  ++ [I ++ I ++ "auto f = ::clif::SafeGetAttrString(pythis.get(), C(\""
        ++ f.name.native ++ "\"));"]
  ++ [I ++ I ++ "if (f.get()) \x7b"]
  ++ [I ++ I ++ I ++ ret_st ++ "::clif::callback::Func<"
        ++ joinSep ", " ([ret] ++ f.params.map TypeStr ++ FuncReturns f)
        ++ ">(f.get())" ++ params ++ ";"]
  ++ [I ++ I ++ "\x7d else \x7b"]
  ++ (if abstract then
        -- This is only called from C++. Since f has no info if it is pure
        -- virtual, we can't always generate the call, so we always fail in an
        -- abstract class.
        [I ++ I ++ I ++ "Py_FatalError(\"@virtual method " ++ pyname ++ "."
           ++ f.name.native ++ " has no Python implementation.\");",
         I ++ I ++ I ++ "abort();"]
      else
        [I ++ I ++ I ++ ret_st ++ name ++ params ++ ";"])
  ++ [I ++ I ++ "\x7d", I ++ "\x7d"]

/-! ## gen.py `TypeObject`. -/

/-- A value of the Python `tp_slots` dict: a plain string or a list of strings
(the `tp_flags` entry before it is joined). -/
inductive SlotVal where
  | s (v : String)
  | l (vs : List String)
deriving DecidableEq

/-- Python dict assignment `d[k] = v` on an insertion-ordered dict. -/
def dictSet (d : List (String × SlotVal)) (k : String) (v : SlotVal) :
    List (String × SlotVal) :=
  if (d.lookup k).isSome then
    d.map (fun kv => if kv.1 == k then (k, v) else kv)
  else d ++ [(k, v)]

/-- Python `' | '.join(x)` for a dict value: over a list it joins the
elements; over a string it joins the characters (the same quirk as Python). -/
def joinFlags (v : SlotVal) : String :=
  match v with
  | .l vs => joinSep " | " vs
  | .s v => joinSep " | " (v.toList.map (fun c => String.mk [c]))

/-- gen.py lines 235-244: the slot-dict updates performed by `TypeObject`. -/
def typeObjectSlots (tp_slots : List (String × SlotVal))
    (ctor wname fqclassname : String) (flags : SlotVal) :
    List (String × SlotVal) :=
  dictSet (dictSet (dictSet (dictSet (dictSet (dictSet (dictSet (dictSet
    (dictSet (dictSet (dictSet (dictSet tp_slots
    "tp_free" (.s "_dtor"))
    "tp_dealloc" (.s "Clif_PyType_GenericFree"))
    "tp_alloc" (.s "_allocator"))
    "tp_new" (.s "PyType_GenericNew"))
    "tp_init" (.s (if ctor != "" then "_ctor"
                   else "Clif_PyType_Inconstructible")))
    "tp_basicsize" (.s ("sizeof(" ++ wname ++ ")")))
    "tp_itemsize" (.s "0"))
    "tp_version_tag" (.s "0"))
    "tp_dictoffset" (.s "0"))
    "tp_weaklistoffset" (.s "0"))
    "tp_flags" (.s (joinFlags flags)))
    "tp_doc" (.s ("\"CLIF wrapper for " ++ fqclassname ++ "\""))

/-- gen.py lines 222-251: everything `TypeObject` yields before the `_ctor`
body (declarations, `_dtor`, and the PyTypeObject table). -/
def typeObjectHead (tp_slots : List (String × SlotVal))
    (slotgen : List (String × SlotVal) → List String)
    (pyname wname fqclassname ctor : String) (async_dtor : Bool)
    (flags : SlotVal) : List String :=
  [""]
  ++ ["// " ++ pyname ++ " __new__",
      "static PyObject* _allocator(PyTypeObject* type, Py_ssize_t nitems);",
      "// " ++ pyname ++ " __init__",
      "static int _ctor(PyObject* self, PyObject* args, PyObject* kw);",
      "",
      "static void _dtor(void* self) \x7b"]
  ++ (if async_dtor then [I ++ "Py_BEGIN_ALLOW_THREADS"] else [])
  ++ [I ++ "delete reinterpret_cast<" ++ wname ++ "*>(self);"]
  ++ (if async_dtor then [I ++ "Py_END_ALLOW_THREADS"] else [])
  ++ ["\x7d"]
  ++ ["",
      "PyTypeObject " ++ (wname ++ "_Type") ++ " = \x7b",
      I ++ "PyVarObject_HEAD_INIT(&PyType_Type, 0)"]
  ++ slotgen (typeObjectSlots tp_slots ctor wname fqclassname flags)
  ++ ["\x7d;", ""]

/-- gen.py lines 259-272: the body of the DEFAULT-policy `_ctor` (the
argument rejection followed by default construction). -/
def defCtorBlock (pyname wname fqclassname subst_cpp_ptr : String) :
    List String :=
  -- Skip __init__ if it's a METH_NOARGS.
  [I ++ "if ((args && PyTuple_GET_SIZE(args) != 0) ||"
     ++ " (kw && PyDict_Size(kw) != 0)) \x7b",
   I ++ I ++ "PyErr_SetString(PyExc_TypeError, \"" ++ pyname
     ++ " takes no arguments\");",
   I ++ I ++ "return -1;",
   I ++ "\x7d",
   I ++ "reinterpret_cast<" ++ wname ++ "*>(self)->cpp"
     ++ " = ::clif::MakeShared<"
     ++ (if subst_cpp_ptr != "" then subst_cpp_ptr else fqclassname)
     ++ ">();"]
  ++ (if subst_cpp_ptr != "" then
        [I ++ "reinterpret_cast<" ++ wname
           ++ "*>(self)->cpp->::clif::PyObj::Init(self);"]
      else [])
  ++ [I ++ "return 0;"]

/-- gen.py lines 253-277: the `_ctor` definition (absent for the
inconstructible policy). -/
def ctorLines (pyname wname fqclassname ctor : String) (abstract : Bool)
    (subst_cpp_ptr : String) : List String :=
  if ctor != "" then
    ["static int _ctor(PyObject* self, PyObject* args, PyObject* kw) \x7b"]
    ++ (if abstract then
          [I ++ "if (Py_TYPE(self) == &" ++ (wname ++ "_Type") ++ ") \x7b",
           I ++ I ++ "return Clif_PyType_Inconstructible(self, args, kw);",
           I ++ "\x7d"]
        else [])
    ++ (if ctor == "DEF" then
          defCtorBlock pyname wname fqclassname subst_cpp_ptr
        else  -- ctor is WRAP (holds 'wrapper name')
          [I ++ "PyObject* init = " ++ ctor ++ "(self, args, kw);",
           I ++ "Py_XDECREF(init);",
           I ++ "return init? 0: -1;"])
    ++ ["\x7d"]
  else []

/-- gen.py lines 279-283: the `_allocator` definition. -/
def allocatorLines (wname : String) : List String :=
  ["static PyObject* _allocator(PyTypeObject* type, Py_ssize_t nitems) \x7b",
   I ++ "assert(nitems == 0);",
   I ++ "PyObject* self = reinterpret_cast<PyObject*>(new " ++ wname ++ ");",
   I ++ "return PyObject_Init(self, &" ++ (wname ++ "_Type") ++ ");",
   "\x7d"]

/-- gen.py `TypeObject`: PyTypeObject table plus `_dtor` / `_ctor` /
`_allocator` methods.  `slotgen` (the excluded pretty-printer producing the
table body from the slot dict) is passed as a function; `ctor = ""` models the
Python `None` policy, `"DEF"` the default-construct policy, anything else the
WRAP policy holding the wrapper name.  Missing `tp_flags` (a `KeyError` in the
source) is `.error`. -/
def TypeObject (tp_slots : List (String × SlotVal))
    (slotgen : List (String × SlotVal) → List String)
    (pyname wname fqclassname ctor : String) (abstract : Bool)
    (async_dtor : Bool) (subst_cpp_ptr : String) :
    Except String (List String) :=
  match tp_slots.lookup "tp_flags" with
  | none => .error "KeyError: tp_flags"
  | some flags =>
    .ok (typeObjectHead tp_slots slotgen pyname wname fqclassname ctor
           async_dtor flags
         ++ ctorLines pyname wname fqclassname ctor abstract subst_cpp_ptr
         ++ [""]
         ++ allocatorLines wname)

/-! ## gen.py `FunctionCall`.

The wrapper synthesizer is embedded as a composition: the fallible steps (the
context-manager-name assertion, `_CreateInputParameter` on `prepend_self` and
on every parameter, indexing `call[-1]`) run first in `Except`, and the total
assembler `functionCallLines` then produces the yielded line list, section by
section in source order (gen.py lines 366-542). -/

def minargsOf (f : FuncDecl) : Nat :=
  (f.params.filter (fun p => p.default_value == "")).length

def nargsOf (f : FuncDecl) : Nat := f.params.length

/-- gen.py lines 366-371: the trailing-`@` context-manager marker check.
Returns `(ctxmgr, pyname)` after the `rstrip('@')`; the failed assertion is
`.error`. -/
def ctxmgrCheck (pyname : String) : Except String (Option String × String) :=
  if strEndsWith pyname "@" then
    if pyname == "__enter__@" || pyname == "__exit__@" then
      .ok (some pyname, rstripAt pyname)
    else .error ("Invalid context manager name " ++ pyname)
  else .ok (none, pyname)

/-- gen.py line 420-421: a default the generator cannot apply statically
(the matcher sentinel `"default"`, or the `b/29437257` workaround for
defaults containing `"inf"`). -/
def unknownDefault (p : ParamDecl) : Bool :=
  p.default_value == "default" || containsSub p.default_value "inf"

/-- gen.py lines 410-412: the conversion statement for parameter `i`. -/
def cvtStr (i : Nat) (cvar func_name ctype : String) : String :=
  "if (!Clif_PyObjAs(a[" ++ toString i ++ "], &" ++ cvar
    ++ ")) return ArgError(\"" ++ func_name ++ "\", names[" ++ toString i
    ++ "], \"" ++ ctype ++ "\", a[" ++ toString i ++ "]);"

/-- gen.py lines 376-383: signature comment and entry-point declaration. -/
def wrapperHeader (wrapper doc : String) (classmethod : Bool) (nargs : Nat) :
    List String :=
  (if classmethod then ["// @classmethod " ++ doc] else ["// " ++ doc])
  ++ ["static PyObject* " ++ wrapper ++ "(PyObject* "
      ++ (if classmethod then "cls" else "self")
      ++ (if nargs != 0 then ", PyObject* args, PyObject* kw" else "")
      ++ ") \x7b"]

/-- gen.py lines 384-387: the `prepend_self` declaration and conversion. -/
def prependLines (pre : Option (String × String)) : List String :=
  match pre with
  | none => []
  | some pr => [I ++ pr.1, I ++ "if (!Clif_PyObjAs(self, &arg0)) return nullptr;"]

/-- gen.py lines 390-404: argument-tuple parsing and, when some parameters
are optional, the backward scan computing the actual supplied count. -/
def parseSection (pyname1 : String) (f : FuncDecl) : List String :=
  let minargs := minargsOf f
  let nargs := nargsOf f
  [I ++ "PyObject* a[" ++ toString nargs ++ "]"
     ++ (if minargs == nargs then "" else "\x7b\x7d") ++ ";",
   I ++ "char* names[] = \x7b"]
  ++ f.params.map (fun p => I ++ I ++ I ++ "C(\"" ++ p.name.native ++ "\"),")
  ++ [I ++ I ++ I ++ "nullptr",
      I ++ "\x7d;",
      I ++ "if (!PyArg_ParseTupleAndKeywords(args, kw, \""
        ++ (if minargs == nargs then charRep 'O' nargs
            else charRep 'O' minargs ++ "|" ++ charRep 'O' (nargs - minargs))
        ++ ":" ++ pyname1 ++ "\", names, "
        ++ joinSep ", " ((List.range nargs).map
             (fun i => "&a[" ++ toString i ++ "]"))
        ++ ")) return nullptr;"]
  ++ (if minargs < nargs then
        [I ++ "int nargs;  // Find how many args actually passed in.",
         I ++ "for (nargs = " ++ toString nargs ++ "; nargs > "
           ++ toString minargs ++ "; --nargs) \x7b",
         I ++ I ++ "if (a[nargs-1] != nullptr) break;",
         I ++ "\x7d"]
      else [])

/-- gen.py lines 406-434: the declaration and conversion lines for the
parameter at position `i` (whose `_CreateInputParameter` declaration is
`decl`). -/
def paramConvertBlock (pyname1 : String) (minargs nargs i : Nat)
    (p : ParamDecl) (decl : String) : List String :=
  let arg := "arg" ++ toString (i + 1)
  let cvt := cvtStr i arg pyname1 (TypeStr p)
  [I ++ decl]
  ++ (if i < minargs then
        -- Non-default parameter.
        [I ++ cvt]
      else
        [I ++ "if (nargs > " ++ toString i ++ ") \x7b"]
        ++ (if unknownDefault p then
              (if i + 1 < nargs then
                 [I ++ I ++ "if (!a[" ++ toString i
                    ++ "]) return DefaultArgMissedError(\"" ++ pyname1
                    ++ "\", names[" ++ toString i ++ "]);"]
               else [])
              ++ [I ++ I ++ cvt]
            else
              [I ++ I ++ "if (!a[" ++ toString i ++ "]) " ++ arg ++ " = ("
                 ++ TypeStr p ++ ")" ++ p.default_value ++ ";",
               I ++ I ++ "else " ++ cvt])
        ++ [I ++ "\x7d"])

/-- The conversion loop over `(parameter, declaration)` pairs starting at
position `i`. -/
def convertSection (pyname1 : String) (minargs nargs : Nat) :
    Nat → List (ParamDecl × String) → List String
  | _, [] => []
  | i, pd :: rest =>
      paramConvertBlock pyname1 minargs nargs i pd.1 pd.2
        ++ convertSection pyname1 minargs nargs (i + 1) rest

/-- gen.py lines 436-441: `retN{}` locals for the extra return values. -/
def retLocalsSection (f : FuncDecl) : List String :=
  f.returns.enum.flatMap (fun nr =>
    if nr.1 != 0 || FuncReturnType f == "void" then
      [I ++ TypeStr nr.2 ++ " ret" ++ toString nr.1 ++ "\x7b\x7d;"]
    else [])

/-- gen.py lines 436-441: the `&retN` getters appended to `params` alongside
`retLocalsSection`. -/
def retPtrParams (f : FuncDecl) : List String :=
  f.returns.enum.flatMap (fun nr =>
    if nr.1 != 0 || FuncReturnType f == "void" then
      ["&ret" ++ toString nr.1]
    else [])

/-- The accumulated call-site argument expressions (`params` in the source):
the `prepend_self` getter, then the per-parameter getters, then the
return-value pointers. -/
def callParams (pre : Option (String × String))
    (cps : List (String × String)) (f : FuncDecl) : List String :=
  (match pre with | none => [] | some pr => [pr.2])
    ++ cps.map Prod.snd ++ retPtrParams f

/-- gen.py lines 447-452. -/
def asyncPreSection (isAsync : Bool) (nargs : Nat) : List String :=
  if isAsync then
    (if nargs != 0 then [I ++ "Py_INCREF(args);", I ++ "Py_XINCREF(kw);"]
     else [])
    ++ [I ++ "PyThreadState* _save;", I ++ "Py_UNBLOCK_THREADS"]
  else []

/-- gen.py lines 453-461: whether `ret0` is declared as `::gtl::optional`. -/
def ret0IsOptional (f : FuncDecl) (catchEx : Bool) : Bool :=
  match f.returns with
  | [] => false
  | r :: _ =>
      (decide (minargsOf f < nargsOf f) || catchEx)
        && !(FuncReturnType f == "void") && !r.type.cpp_has_def_ctor

/-- gen.py lines 453-461: the early `ret0` declaration needed when the call
sits inside a switch or a try block. -/
def ret0DeclSection (f : FuncDecl) (catchEx : Bool) : List String :=
  if (decide (minargsOf f < nargsOf f) || catchEx)
      && !(FuncReturnType f == "void") then
    match f.returns with
    | [] => []  -- unreachable: FuncReturnType is "void" on an empty returns
    | r :: _ =>
        if r.type.cpp_has_def_ctor then [I ++ FuncReturnType f ++ " ret0;"]
        else [I ++ "::gtl::optional<" ++ FuncReturnType f ++ "> ret0;"]
  else []

/-- gen.py `_GenExceptionTry`. -/
def catchTrySection (c : Bool) : List String :=
  if c then
    [I ++ "PyObject* err_type = nullptr;",
     I ++ "string err_msg\x7b\"C++ exception\"\x7d;",
     I ++ "try \x7b"]
  else []

/-- gen.py `_GenExceptionCatch`. -/
def catchCatchSection (c : Bool) : List String :=
  if c then
    [I ++ "\x7d catch(const std::exception& e) \x7b",
     I ++ I ++ "err_type = PyExc_RuntimeError;",
     I ++ I ++ "err_msg += string(\": \") + e.what();",
     I ++ "\x7d catch (...) \x7b",
     I ++ I ++ "err_type = PyExc_RuntimeError;",
     I ++ "\x7d"]
  else []

/-- gen.py `_GenExceptionRaise`. -/
def catchRaiseSection (c : Bool) : List String :=
  if c then
    [I ++ "if (err_type) \x7b",
     I ++ I ++ "PyErr_SetString(err_type, err_msg.c_str());",
     I ++ I ++ "return nullptr;",
     I ++ "\x7d"]
  else []

/-- gen.py lines 465-481: the native call — an arity switch over the actual
supplied count when trailing parameters are optional, a single call
otherwise. -/
def callSection (ps : List String) (call0 : String) (f : FuncDecl)
    (catchEx : Bool) : List String :=
  let voidRet := FuncReturnType f == "void"
  let minargs := minargsOf f
  let nargs := nargsOf f
  if minargs < nargs then
    let effCall := if voidRet then call0 else "ret0 = " ++ call0
    [I ++ "switch (nargs) \x7b"]
    ++ (List.range' minargs (nargs + 1 - minargs)).flatMap (fun n =>
         [I ++ "case " ++ toString n ++ ":",
          I ++ I ++ effCall ++ TupleStr (ps.take n) ++ "; break;"])
    ++ [I ++ "\x7d"]
  else
    let fullCall := call0 ++ TupleStr ps
    let ind := if catchEx then I else ""
    if voidRet then [ind ++ I ++ fullCall ++ ";"]
    else if catchEx then [ind ++ I ++ "ret0 = " ++ fullCall ++ ";"]
    else [ind ++ I ++ FuncReturnType f ++ " ret0 = " ++ fullCall ++ ";"]

/-- gen.py lines 485-489. -/
def postcallSection (postcall_init : String) (voidRet : Bool) : List String :=
  if postcall_init != "" then
    if voidRet then [I ++ postcall_init] else [I ++ "ret0" ++ postcall_init]
  else []

/-- gen.py lines 490-494. -/
def asyncPostSection (isAsync : Bool) (nargs : Nat) : List String :=
  if isAsync then
    [I ++ "Py_BLOCK_THREADS"]
    ++ (if nargs != 0 then [I ++ "Py_DECREF(args);", I ++ "Py_XDECREF(kw);"]
        else [])
  else []

/-- gen.py lines 499-509: the multi-return tuple packing with all-or-nothing
failure. -/
def tupleReturnLines (f : FuncDecl) (tpc : List (String × Nat)) :
    List String :=
  [I ++ "// Convert return values to Python.",
   I ++ "PyObject* p, * result_tuple = PyTuple_New("
     ++ toString f.returns.length ++ ");",
   I ++ "if (result_tuple == nullptr) return nullptr;"]
  ++ f.returns.enum.flatMap (fun ir =>
       [I ++ "if ((p=Clif_PyObjFrom(std::move(ret" ++ toString ir.1 ++ "), "
          ++ Initializer ir.2.type tpc ++ ")) == nullptr) \x7b",
        I ++ I ++ "Py_DECREF(result_tuple);",
        I ++ I ++ "return nullptr;",
        I ++ "\x7d",
        I ++ "PyTuple_SET_ITEM(result_tuple, " ++ toString ir.1 ++ ", p);"])

/-- gen.py lines 510-523: the post-processing hook invocation. -/
def postprocLines (postproc : String) (ctxmgr : Option String) : List String :=
  if postproc != "" then
    [I ++ "PyObject* pyproc = ImportFQName(\"" ++ postproc ++ "\");",
     I ++ "if (pyproc == nullptr) \x7b",
     I ++ I ++ "Py_DECREF(result_tuple);",
     I ++ I ++ "return nullptr;",
     I ++ "\x7d",
     I ++ "p = PyObject_CallObject(pyproc, result_tuple);",
     I ++ "Py_DECREF(pyproc);",
     I ++ "Py_CLEAR(result_tuple);"]
    ++ (if ctxmgr.isSome then
          [I ++ "if (p == nullptr) return nullptr;",
           I ++ "Py_DECREF(p);  // Not needed by the context manager."]
        else [I ++ "result_tuple = p;"])
  else []

/-- gen.py lines 498-541: the RETURN phase.  If ctxmgr, force return self on
enter, None on exit. -/
def returnSection (ctxmgr : Option String) (f : FuncDecl)
    (tpc : List (String × Nat)) (catchEx : Bool) : List String :=
  match f.returns with
  | [] =>
      if ctxmgr == some "__enter__@" then
        [I ++ "Py_INCREF(self);", I ++ "return self;"]
      else [I ++ "Py_RETURN_NONE;"]
  | r :: _ =>
      if f.returns.length > 1 || f.postproc != "" || ctxmgr.isSome then
        tupleReturnLines f tpc
        ++ postprocLines f.postproc ctxmgr
        ++ (if ctxmgr == some "__enter__@" then
              [I ++ "Py_XDECREF(result_tuple);",
               I ++ "Py_INCREF(self);",
               I ++ "return self;"]
            else if ctxmgr == some "__exit__@" then
              [I ++ "Py_XDECREF(result_tuple);",
               I ++ "Py_RETURN_NONE;"]
            else [I ++ "return result_tuple;"])
      else
        [I ++ "return Clif_PyObjFrom(std::move(ret0"
           ++ (if ret0IsOptional f catchEx then ".value()" else "") ++ "), "
           ++ Initializer r.type tpc ++ ");"]

/-- The full yielded line list of `FunctionCall`, given the outcomes of the
fallible steps (`pyname1`/`ctxmgr` from `ctxmgrCheck`, `pre` for
`prepend_self`, `cps` the per-parameter `(declaration, getter)` pairs,
`callPre`/`call0` from the `call` argument). -/
def functionCallLines (pyname1 : String) (ctxmgr : Option String)
    (wrapper doc : String) (catchEx : Bool) (callPre : List String)
    (call0 : String) (postcall_init : String) (tpc : List (String × Nat))
    (f : FuncDecl) (pre : Option (String × String))
    (cps : List (String × String)) : List String :=
  let nargs := nargsOf f
  let minargs := minargsOf f
  let voidRet := FuncReturnType f == "void"
  [""]
  ++ wrapperHeader wrapper doc f.classmethod nargs
  ++ prependLines pre
  ++ (if nargs != 0 then
        parseSection pyname1 f
        ++ convertSection pyname1 minargs nargs 0
             (f.params.zip (cps.map Prod.fst))
      else [])
  ++ retLocalsSection f
  ++ [I ++ "// Call actual C++ method."]
  ++ callPre.map (fun s => I ++ s)
  ++ asyncPreSection f.async nargs
  ++ ret0DeclSection f catchEx
  ++ catchTrySection catchEx
  ++ callSection (callParams pre cps f) call0 f catchEx
  ++ catchCatchSection catchEx
  ++ postcallSection postcall_init voidRet
  ++ asyncPostSection f.async nargs
  ++ catchRaiseSection catchEx
  ++ returnSection ctxmgr f tpc catchEx
  ++ ["\x7d"]

/-- The `call` argument of `FunctionCall`: a single C++ command or a list of
commands whose last element is the call proper. -/
inductive CallArg where
  | str (s : String)
  | list (l : List String)

/-- gen.py lines 443-446: split a `call` argument into leading commands and
the call command (`call[-1]`; an `IndexError` on an empty list). -/
def callSplit : CallArg → Except String (List String × String)
  | .str s => .ok ([], s)
  | .list [] => .error "IndexError: list index out of range"
  | .list (x :: xs) =>
      .ok ((x :: xs).dropLast, (x :: xs).getLast (List.cons_ne_nil x xs))

/-- Run `_CreateInputParameter` on every parameter in order with the stack
names `arg(i+1)`, collecting the `(declaration, getter)` pairs. -/
def convertedParamsAux (fname : String) :
    Nat → List ParamDecl → Except String (List (String × String))
  | _, [] => .ok []
  | i, p :: rest =>
      match _CreateInputParameter fname p ("arg" ++ toString (i + 1)) with
      | .error e => .error e
      | .ok r =>
          match convertedParamsAux fname (i + 1) rest with
          | .error e => .error e
          | .ok rs => .ok (r :: rs)

/-- gen.py `FunctionCall`: generate the PyCFunction wrapper from an AST
`FuncDecl`. -/
def FunctionCall (pyname wrapper doc : String) (catchEx : Bool)
    (call : CallArg) (postcall_init : String) (tpc : List (String × Nat))
    (func_ast : FuncDecl) (lineno : Nat) (prepend_self : Option ParamDecl) :
    Except String (List String) :=
  match ctxmgrCheck pyname with
  | .error e => .error e
  | .ok cm =>
    let fname := cm.2 ++ " line " ++ toString lineno
    match (match prepend_self with
           | none => Except.ok none
           | some p =>
               match _CreateInputParameter fname p "arg0" with
               | .error e => .error e
               | .ok r => .ok (some r)) with
    | .error e => .error e
    | .ok pre =>
      match convertedParamsAux fname 0 func_ast.params with
      | .error e => .error e
      | .ok cps =>
        match callSplit call with
        | .error e => .error e
        | .ok cp =>
            .ok (functionCallLines cm.2 cm.1 wrapper doc catchEx cp.1 cp.2
              postcall_init tpc func_ast pre cps)

/-! ## Concrete example descriptors (used by witnesses and counterexamples). -/

/-- A plain value type with a default constructor (an `int`). -/
def intType : TypeSpec :=
  ⟨"int", "int", false, false, true, true, false, false, none⟩

/-- An `int` parameter named `nm` with default `dv` (`""` = required). -/
def intParam (nm dv : String) : ParamDecl := ⟨⟨nm, nm⟩, intType, dv⟩

/-- `def f(a, b, c=0) -> int`: two required and one optional parameter. -/
def exF1 : FuncDecl :=
  ⟨⟨"f", "F"⟩, [intParam "a" "", intParam "b" "", intParam "c" "0"],
   [intParam "r" ""], false, false, "", false, false, false⟩

/-- A callable returning two values (one output parameter). -/
def exCb2 : CallableSig := ⟨["int", "int"], ["int"]⟩

/-- A function-valued parameter (empty `cpp_type`) carrying `exCb2`. -/
def exCbParam : ParamDecl :=
  ⟨⟨"cb", "cb"⟩,
   ⟨"Callable", "", false, false, false, false, false, false, some exCb2⟩, ""⟩

/-- A raw pointer to an abstract class with only the owning-pointer
conversion. -/
def exAbsPtrParam : ParamDecl :=
  ⟨⟨"obj", "obj"⟩,
   ⟨"Abstract", "::Abstract*", true, true, false, true, false, true, none⟩,
   ""⟩

/-- `def __enter__(self)` with no return values (context-manager enter). -/
def exEnterF : FuncDecl :=
  ⟨⟨"__enter__", "Enter"⟩, [], [], false, false, "", true, false, false⟩

/-- A plain zero-return function. -/
def exF0 : FuncDecl :=
  ⟨⟨"g", "G"⟩, [], [], false, false, "", true, false, false⟩

/-- A function with two return values. -/
def exF2 : FuncDecl :=
  ⟨⟨"h", "H"⟩, [], [intParam "r" "", intParam "s" ""], false, false, "",
   false, false, false⟩

/-- The lines `FunctionCall` yields for the `__enter__@` example. -/
def exEnterLines : List String :=
  ["", "// void Enter()", "static PyObject* wE(PyObject* self) \x7b",
   I ++ "// Call actual C++ method.", I ++ "self->Enter();",
   I ++ "Py_INCREF(self);", I ++ "return self;", "\x7d"]

/-! ## Shared inversion and helper lemmas. -/

/-- The stripped Python name `FunctionCall` works with after the
context-manager check. -/
def pyCleanName (pyname : String) : String :=
  if strEndsWith pyname "@" then rstripAt pyname else pyname

theorem ctxmgrCheck_ok_snd {p : String} {cm : Option String × String}
    (h : ctxmgrCheck p = .ok cm) : cm.2 = pyCleanName p := by
  unfold ctxmgrCheck at h
  unfold pyCleanName
  by_cases he : strEndsWith p "@" = true
  · rw [if_pos he] at h
    rw [if_pos he]
    by_cases h2 : (p == "__enter__@" || p == "__exit__@") = true
    · rw [if_pos h2] at h
      cases h
      rfl
    · rw [if_neg h2] at h
      cases h
  · rw [if_neg he] at h
    rw [if_neg he]
    cases h
    rfl

theorem ctxmgrCheck_ok_enter {p : String} {cm : Option String × String}
    (h : ctxmgrCheck p = .ok cm) :
    cm.1 = some "__enter__@" ↔ p = "__enter__@" := by
  unfold ctxmgrCheck at h
  by_cases he : strEndsWith p "@" = true
  · rw [if_pos he] at h
    by_cases h2 : (p == "__enter__@" || p == "__exit__@") = true
    · rw [if_pos h2] at h
      cases h
      simp
    · rw [if_neg h2] at h
      cases h
  · rw [if_neg he] at h
    cases h
    constructor
    · intro hc
      cases hc
    · intro hp
      subst hp
      exact absurd (by decide) he

/-- Success of `FunctionCall` determines the outcomes of all the fallible
steps and the yielded line list. -/
theorem FunctionCall_ok_elim {pyname wrapper doc : String} {catchEx : Bool}
    {call : CallArg} {pci : String} {tpc : List (String × Nat)} {f : FuncDecl}
    {ln : Nat} {ps : Option ParamDecl} {L : List String}
    (h : FunctionCall pyname wrapper doc catchEx call pci tpc f ln ps = .ok L) :
    ∃ cm pre cps cp,
      ctxmgrCheck pyname = .ok cm ∧
      convertedParamsAux (cm.2 ++ " line " ++ toString ln) 0 f.params
        = .ok cps ∧
      callSplit call = .ok cp ∧
      L = functionCallLines cm.2 cm.1 wrapper doc catchEx cp.1 cp.2 pci tpc
        f pre cps := by
  unfold FunctionCall at h
  cases hcm : ctxmgrCheck pyname with
  | error e => rw [hcm] at h; cases h
  | ok cm =>
    rw [hcm] at h
    simp only at h
    cases hpre : (match ps with
           | none => Except.ok none
           | some p =>
               match _CreateInputParameter (cm.2 ++ " line " ++ toString ln)
                   p "arg0" with
               | .error e => .error e
               | .ok r => .ok (some r)) with
    | error e => rw [hpre] at h; cases h
    | ok pre =>
      rw [hpre] at h
      cases hcps : convertedParamsAux (cm.2 ++ " line " ++ toString ln) 0
          f.params with
      | error e => rw [hcps] at h; cases h
      | ok cps =>
        rw [hcps] at h
        cases hcp : callSplit call with
        | error e => rw [hcp] at h; cases h
        | ok cp =>
          rw [hcp] at h
          cases h
          exact ⟨cm, pre, cps, cp, rfl, hcps, rfl, rfl⟩

/-! ## Claim C5: function-valued parameters. -/

/-- C5: for a function-valued parameter (empty native type spelling with a
callable descriptor), `_CreateInputParameter` raises the unsupported-signature
`ValueError` if and only if the callable descriptor has more than one return
value; otherwise it declares a `std::function` local and appends a
pass-by-move call-site expression. -/
theorem CreateInputParameter_callable_spec (func_name : String)
    (p : ParamDecl) (arg : String) (c : CallableSig)
    (h1 : p.type.cpp_type = "") (h2 : p.type.callable = some c) :
    _CreateInputParameter func_name p arg =
      (if c.returns.length > 1 then
        .error ("Callbacks may not have any output parameters, " ++ func_name
          ++ " param " ++ p.name.native ++ " has "
          ++ toString (c.returns.length - 1))
      else
        .ok ("std::function<" ++ StdFuncParamStr c ++ "> " ++ arg ++ ";",
             "std::move(" ++ arg ++ ")")) := by
  simp only [_CreateInputParameter, h1, h2]
  simp

/-- C5 witness: a callable with two return values is rejected. -/
theorem CreateInputParameter_callable_spec_witness :
    _CreateInputParameter "f line 1" exCbParam "arg1" =
      (if exCb2.returns.length > 1 then
        .error ("Callbacks may not have any output parameters, " ++ "f line 1"
          ++ " param " ++ exCbParam.name.native ++ " has "
          ++ toString (exCb2.returns.length - 1))
      else
        .ok ("std::function<" ++ StdFuncParamStr exCb2 ++ "> " ++ "arg1"
             ++ ";", "std::move(" ++ "arg1" ++ ")")) :=
  CreateInputParameter_callable_spec "f line 1" exCbParam "arg1" exCb2 rfl rfl

/-! ## Claim C6: raw pointer to an abstract class. -/

/-- C6: for a parameter typed as a raw pointer to an abstract class, with no
direct-to-pointer conversion but with an owning-pointer conversion available,
`_CreateInputParameter` declares a `std::unique_ptr` local for the pointee
type and appends a call-site expression extracting its raw address via
`.get()`. -/
theorem CreateInputParameter_abstract_raw_pointer (func_name : String)
    (p : ParamDecl) (arg : String)
    (h1 : p.type.cpp_raw_pointer = true)
    (h2 : p.type.cpp_toptr_conversion = false)
    (h3 : p.type.cpp_abstract = true)
    (h4 : p.type.cpp_touniqptr_conversion = true)
    (h5 : strEndsWith p.type.cpp_type "*" = true) :
    _CreateInputParameter func_name p arg =
      .ok ("::std::unique_ptr<" ++ dropLastStr p.type.cpp_type ++ "> "
             ++ arg ++ ";",
           arg ++ ".get()") := by
  have hne : (p.type.cpp_type == "") = false := by
    cases heq : p.type.cpp_type == "" with
    | false => rfl
    | true =>
        rw [eq_of_beq heq] at h5
        exact absurd h5 (by decide)
  simp only [_CreateInputParameter, h1, h2, h3, h4, h5, hne]
  simp

/-- C6 witness: an abstract `::Abstract*` parameter at a concrete input. -/
theorem CreateInputParameter_abstract_raw_pointer_witness :
    _CreateInputParameter "f line 2" exAbsPtrParam "arg1" =
      .ok ("::std::unique_ptr<" ++ dropLastStr exAbsPtrParam.type.cpp_type
             ++ "> " ++ "arg1" ++ ";",
           "arg1" ++ ".get()") :=
  CreateInputParameter_abstract_raw_pointer "f line 2" exAbsPtrParam "arg1"
    rfl rfl rfl rfl (by decide)

/-! ## Claim C7: abstract virtual methods with no Python implementation. -/

/-- C7: for an abstract overridable method, the override emitted by
`VirtualFunctionCall` handles the no-matching-attribute branch by emitting
`Py_FatalError` (with a diagnostic naming the class and the method) followed
by `abort()` — process termination, not an exception or a return. -/
theorem VirtualFunctionCall_abstract_fatal (fname : String) (f : FuncDecl)
    (pyname : String) :
    ∃ pre, VirtualFunctionCall fname f pyname true =
      pre ++ [I ++ I ++ "\x7d else \x7b",
              I ++ I ++ I ++ "Py_FatalError(\"@virtual method " ++ pyname
                ++ "." ++ f.name.native ++ " has no Python implementation.\");",
              I ++ I ++ I ++ "abort();",
              I ++ I ++ "\x7d",
              I ++ "\x7d"] := by
  refine ⟨(VirtualFunctionCall fname f pyname true).take 5, ?_⟩
  simp [VirtualFunctionCall]

/-! ## Claim C9: the Headlines sentinel frame effect. -/

/-- C9 counterexample: with `hdr_files = ["PYTHON", "PYTHON"]` the first
element (the sentinel) is deleted, yet after generation the caller's list
still contains the sentinel string — refuting "no longer contains the
sentinel". -/
theorem Headlines_sentinel_counterexample :
    (Headlines "s.h" ["PYTHON", "PYTHON"] [] "" none).2 = ["PYTHON"] ∧
    "PYTHON" ∈ (Headlines "s.h" ["PYTHON", "PYTHON"] [] "" none).2 := by
  constructor
  · rfl
  · simp [Headlines]

/-- C9 (amended): when the first element of `hdr_files` is the sentinel
`"PYTHON"`, `Headlines` deletes that first element while yielding lines, so
the caller's list afterwards is the tail of the original (later occurrences
of the sentinel string, if any, remain); for all other inputs `hdr_files` is
left unchanged. -/
theorem Headlines_hdr_files_effect (src : String) (hdr sys : List String)
    (ns : String) (py3 : Option Bool) :
    (Headlines src hdr sys ns py3).2 =
      if hdr.head? = some "PYTHON" then hdr.tail else hdr := by
  by_cases h : hdr.head? = some "PYTHON"
  · simp [Headlines, h]
  · simp [Headlines, h]

/-! ## Claim C10: the context-manager name assertion. -/

/-- C10: for a `pyname` ending in the context-manager marker `"@"` that is
neither `"__enter__@"` nor `"__exit__@"`, `FunctionCall` fails the assertion
(aborting generation with no output) instead of producing lines. -/
theorem FunctionCall_ctxmgr_assert (pyname wrapper doc : String)
    (catchEx : Bool) (call : CallArg) (pci : String)
    (tpc : List (String × Nat)) (f : FuncDecl) (ln : Nat)
    (ps : Option ParamDecl)
    (h1 : strEndsWith pyname "@" = true)
    (h2 : pyname ≠ "__enter__@") (h3 : pyname ≠ "__exit__@") :
    FunctionCall pyname wrapper doc catchEx call pci tpc f ln ps =
      .error ("Invalid context manager name " ++ pyname) := by
  unfold FunctionCall ctxmgrCheck
  rw [if_pos h1]
  have he : (pyname == "__enter__@") = false := by
    cases hb : pyname == "__enter__@" with
    | false => rfl
    | true => exact absurd (eq_of_beq hb) h2
  have hx : (pyname == "__exit__@") = false := by
    cases hb : pyname == "__exit__@" with
    | false => rfl
    | true => exact absurd (eq_of_beq hb) h3
  rw [he, hx]
  rfl

/-- C10 witness: `"__iter__@"` ends in the marker and is rejected. -/
theorem FunctionCall_ctxmgr_assert_witness :
    FunctionCall "__iter__@" "w" "d" false (CallArg.str "c") "" [] exF0 0
      none = .error ("Invalid context manager name " ++ "__iter__@") :=
  FunctionCall_ctxmgr_assert "__iter__@" "w" "d" false (CallArg.str "c") ""
    [] exF0 0 none (by decide) (by decide) (by decide)

/-! ## Claim C8: the DEFAULT constructor trampoline. -/

/-- C8: for a class with constructor policy DEFAULT (`ctor = "DEF"`), the
`_ctor` trampoline emitted by `TypeObject` rejects any call supplying
positional or keyword arguments (setting a `TypeError` and returning `-1`)
and otherwise default-constructs the native object into the wrapper (via
`::clif::MakeShared`, binding it back to the dynamic wrapper when a
substitute class is used). -/
theorem TypeObject_default_ctor (tp_slots : List (String × SlotVal))
    (slotgen : List (String × SlotVal) → List String)
    (pyname wname fqclassname : String) (abstract async_dtor : Bool)
    (subst : String) (L : List String)
    (h : TypeObject tp_slots slotgen pyname wname fqclassname "DEF" abstract
      async_dtor subst = .ok L) :
    ∃ pre post, L = pre ++
      ([I ++ "if ((args && PyTuple_GET_SIZE(args) != 0) ||"
          ++ " (kw && PyDict_Size(kw) != 0)) \x7b",
        I ++ I ++ "PyErr_SetString(PyExc_TypeError, \"" ++ pyname
          ++ " takes no arguments\");",
        I ++ I ++ "return -1;",
        I ++ "\x7d",
        I ++ "reinterpret_cast<" ++ wname ++ "*>(self)->cpp"
          ++ " = ::clif::MakeShared<"
          ++ (if subst != "" then subst else fqclassname) ++ ">();"]
       ++ (if subst != "" then
             [I ++ "reinterpret_cast<" ++ wname
                ++ "*>(self)->cpp->::clif::PyObj::Init(self);"]
           else [])
       ++ [I ++ "return 0;"]) ++ post := by
  unfold TypeObject at h
  cases hl : tp_slots.lookup "tp_flags" with
  | none => rw [hl] at h; cases h
  | some flags =>
    rw [hl] at h
    cases h
    refine ⟨typeObjectHead tp_slots slotgen pyname wname fqclassname "DEF"
        async_dtor flags
      ++ (["static int _ctor(PyObject* self, PyObject* args, PyObject* kw) \x7b"]
          ++ (if abstract then
                [I ++ "if (Py_TYPE(self) == &" ++ (wname ++ "_Type")
                   ++ ") \x7b",
                 I ++ I ++ "return Clif_PyType_Inconstructible(self, args, kw);",
                 I ++ "\x7d"]
              else [])),
      ["\x7d"] ++ [""] ++ allocatorLines wname, ?_⟩
    have h1 : (("DEF" : String) != "") = true := by decide
    have h2 : (("DEF" : String) == "DEF") = true := by decide
    simp [ctorLines, h1, h2, defCtorBlock, List.append_assoc]

/-! ## Claim C1: helper lemmas on the arity switch. -/

theorem minargsOf_append (f : FuncDecl) (req opt : List ParamDecl)
    (hp : f.params = req ++ opt)
    (h1 : ∀ p ∈ req, p.default_value = "")
    (h2 : ∀ p ∈ opt, p.default_value ≠ "") :
    minargsOf f = req.length := by
  unfold minargsOf
  rw [hp, List.filter_append]
  have e1 : req.filter (fun p => p.default_value == "") = req :=
    List.filter_eq_self.mpr (fun a ha => by simp [h1 a ha])
  have e2 : opt.filter (fun p => p.default_value == "") = [] :=
    List.filter_eq_nil_iff.mpr (fun a ha => by simp [h2 a ha])
  rw [e1, e2]
  simp

theorem callSection_switch (ps : List String) (call0 : String) (f : FuncDecl)
    (catchEx : Bool) (h : minargsOf f < nargsOf f) :
    callSection ps call0 f catchEx =
      [I ++ "switch (nargs) \x7b"]
      ++ (List.range' (minargsOf f) (nargsOf f + 1 - minargsOf f)).flatMap
           (fun n =>
             [I ++ "case " ++ toString n ++ ":",
              I ++ I ++ (if FuncReturnType f == "void" then call0
                         else "ret0 = " ++ call0)
                ++ TupleStr (ps.take n) ++ "; break;"])
      ++ [I ++ "\x7d"] := by
  simp only [callSection]
  rw [if_pos h]

/-- C1: for a callable whose parameter list is `minargs` required parameters
followed by `k = |opt| ≥ 1` optional (defaulted) trailing parameters, the
wrapper emitted by `FunctionCall` contains a switch on the actual
supplied-argument count with exactly `k+1` case branches, one per count `n`
from `minargs` to `nargs` inclusive, and the branch for count `n` invokes
the native call with exactly the first `n` accumulated call-site argument
expressions (`params[:n]`). -/
theorem FunctionCall_arity_branches (pyname wrapper doc : String)
    (catchEx : Bool) (call : CallArg) (pci : String)
    (tpc : List (String × Nat)) (f : FuncDecl) (ln : Nat)
    (ps : Option ParamDecl) (L : List String) (req opt : List ParamDecl)
    (hp : f.params = req ++ opt)
    (hreq : ∀ p ∈ req, p.default_value = "")
    (hopt : ∀ p ∈ opt, p.default_value ≠ "")
    (hne : opt ≠ [])
    (h : FunctionCall pyname wrapper doc catchEx call pci tpc f ln ps
      = .ok L) :
    ∃ pre post pre0 cps cp,
      callSplit call = .ok cp ∧
      convertedParamsAux (pyCleanName pyname ++ " line " ++ toString ln) 0
        f.params = .ok cps ∧
      minargsOf f = req.length ∧
      nargsOf f = req.length + opt.length ∧
      L = pre
        ++ ([I ++ "switch (nargs) \x7b"]
            ++ (List.range' (minargsOf f) (nargsOf f + 1 - minargsOf f)).flatMap
                 (fun n =>
                   [I ++ "case " ++ toString n ++ ":",
                    I ++ I ++ (if FuncReturnType f == "void" then cp.2
                               else "ret0 = " ++ cp.2)
                      ++ TupleStr ((callParams pre0 cps f).take n)
                      ++ "; break;"])
            ++ [I ++ "\x7d"])
        ++ post ∧
      (List.range' (minargsOf f) (nargsOf f + 1 - minargsOf f)).length
        = opt.length + 1 ∧
      (∀ n, n ∈ List.range' (minargsOf f) (nargsOf f + 1 - minargsOf f) ↔
        minargsOf f ≤ n ∧ n ≤ nargsOf f) := by
  obtain ⟨cm, pre0, cps, cp, hcm, hcps, hcp, hL⟩ := FunctionCall_ok_elim h
  have hsnd := ctxmgrCheck_ok_snd hcm
  rw [hsnd] at hcps
  have hmin : minargsOf f = req.length := minargsOf_append f req opt hp hreq
    hopt
  have hnarg : nargsOf f = req.length + opt.length := by
    unfold nargsOf
    rw [hp, List.length_append]
  have hlt : minargsOf f < nargsOf f := by
    have := List.length_pos.mpr hne
    omega
  refine ⟨[""] ++ wrapperHeader wrapper doc f.classmethod (nargsOf f)
      ++ prependLines pre0
      ++ (if nargsOf f != 0 then
            parseSection cm.2 f
            ++ convertSection cm.2 (minargsOf f) (nargsOf f) 0
                 (f.params.zip (cps.map Prod.fst))
          else [])
      ++ retLocalsSection f
      ++ [I ++ "// Call actual C++ method."]
      ++ cp.1.map (fun s => I ++ s)
      ++ asyncPreSection f.async (nargsOf f)
      ++ ret0DeclSection f catchEx
      ++ catchTrySection catchEx,
    catchCatchSection catchEx
      ++ postcallSection pci (FuncReturnType f == "void")
      ++ asyncPostSection f.async (nargsOf f)
      ++ catchRaiseSection catchEx
      ++ returnSection cm.1 f tpc catchEx
      ++ ["\x7d"],
    pre0, cps, cp, hcp, hcps, hmin, hnarg, ?_, ?_, ?_⟩
  · subst hL
    simp only [functionCallLines]
    rw [callSection_switch _ _ _ _ hlt]
    simp [List.append_assoc]
  · rw [List.length_range']
    omega
  · intro n
    rw [List.mem_range'_1]
    omega

/-- C1 witness: `f(a, b, c=0)` (two required, one optional parameter) at a
concrete input. -/
theorem FunctionCall_arity_branches_witness :
    ∃ pre post pre0 cps cp,
      callSplit (CallArg.str "F") = .ok cp ∧
      convertedParamsAux (pyCleanName "f" ++ " line " ++ toString 7) 0
        exF1.params = .ok cps ∧
      minargsOf exF1 = [intParam "a" "", intParam "b" ""].length ∧
      nargsOf exF1
        = [intParam "a" "", intParam "b" ""].length
          + [intParam "c" "0"].length ∧
      ((FunctionCall "f" "wF" "d" false (CallArg.str "F") "" [] exF1 7
          none).toOption.getD []) = pre
        ++ ([I ++ "switch (nargs) \x7b"]
            ++ (List.range' (minargsOf exF1)
                  (nargsOf exF1 + 1 - minargsOf exF1)).flatMap
                 (fun n =>
                   [I ++ "case " ++ toString n ++ ":",
                    I ++ I ++ (if FuncReturnType exF1 == "void" then cp.2
                               else "ret0 = " ++ cp.2)
                      ++ TupleStr ((callParams pre0 cps exF1).take n)
                      ++ "; break;"])
            ++ [I ++ "\x7d"])
        ++ post ∧
      (List.range' (minargsOf exF1)
          (nargsOf exF1 + 1 - minargsOf exF1)).length
        = [intParam "c" "0"].length + 1 ∧
      (∀ n, n ∈ List.range' (minargsOf exF1)
          (nargsOf exF1 + 1 - minargsOf exF1) ↔
        minargsOf exF1 ≤ n ∧ n ≤ nargsOf exF1) :=
  FunctionCall_arity_branches "f" "wF" "d" false (CallArg.str "F") "" [] exF1
    7 none _ [intParam "a" "", intParam "b" ""] [intParam "c" "0"]
    rfl (by decide) (by decide) (by decide) rfl

/-- An example slot dict containing the required `tp_flags` entry. -/
def exSlots : List (String × SlotVal) :=
  [("tp_flags", .l ["Py_TPFLAGS_DEFAULT"])]

/-- An example slot-table printer (the excluded pretty-printer). -/
def exSlotgen : List (String × SlotVal) → List String := fun _ => []

/-- C8 witness: a DEFAULT-policy class at a concrete input. -/
theorem TypeObject_default_ctor_witness :
    ∃ pre post,
      (TypeObject exSlots exSlotgen "K" "wK" "::K" "DEF" false false
        "").toOption.getD [] = pre ++
      ([I ++ "if ((args && PyTuple_GET_SIZE(args) != 0) ||"
          ++ " (kw && PyDict_Size(kw) != 0)) \x7b",
        I ++ I ++ "PyErr_SetString(PyExc_TypeError, \"" ++ "K"
          ++ " takes no arguments\");",
        I ++ I ++ "return -1;",
        I ++ "\x7d",
        I ++ "reinterpret_cast<" ++ "wK" ++ "*>(self)->cpp"
          ++ " = ::clif::MakeShared<"
          ++ (if ("" : String) != "" then "" else "::K") ++ ">();"]
       ++ (if ("" : String) != "" then
             [I ++ "reinterpret_cast<" ++ "wK"
                ++ "*>(self)->cpp->::clif::PyObj::Init(self);"]
           else [])
       ++ [I ++ "return 0;"]) ++ post :=
  TypeObject_default_ctor exSlots exSlotgen "K" "wK" "::K" false false "" _
    rfl

/-! ## Claim C2: helper lemmas on the conversion loop. -/

theorem paramConvertBlock_optional (py : String) (m n i : Nat)
    (p : ParamDecl) (decl : String) (h : m ≤ i) :
    paramConvertBlock py m n i p decl =
      [I ++ decl, I ++ "if (nargs > " ++ toString i ++ ") \x7b"]
      ++ (if unknownDefault p then
            (if i + 1 < n then
               [I ++ I ++ "if (!a[" ++ toString i
                  ++ "]) return DefaultArgMissedError(\"" ++ py
                  ++ "\", names[" ++ toString i ++ "]);"]
             else [])
            ++ [I ++ I ++ cvtStr i ("arg" ++ toString (i + 1)) py (TypeStr p)]
          else
            [I ++ I ++ "if (!a[" ++ toString i ++ "]) "
               ++ ("arg" ++ toString (i + 1)) ++ " = (" ++ TypeStr p ++ ")"
               ++ p.default_value ++ ";",
             I ++ I ++ "else "
               ++ cvtStr i ("arg" ++ toString (i + 1)) py (TypeStr p)])
      ++ [I ++ "\x7d"] := by
  simp only [paramConvertBlock]
  rw [if_neg (Nat.not_lt.mpr h)]
  simp [List.append_assoc]

theorem convertSection_emit (fname py : String) (m n : Nat)
    (xs : List ParamDecl) (p : ParamDecl) (ys : List ParamDecl) :
    ∀ (j : Nat) (cps : List (String × String)),
      convertedParamsAux fname j (xs ++ p :: ys) = .ok cps →
      ∃ pre post decl getter,
        _CreateInputParameter fname p
          ("arg" ++ toString (j + xs.length + 1)) = .ok (decl, getter) ∧
        convertSection py m n j ((xs ++ p :: ys).zip (cps.map Prod.fst)) =
          pre ++ paramConvertBlock py m n (j + xs.length) p decl ++ post := by
  induction xs with
  | nil =>
    intro j cps h
    simp only [List.nil_append, convertedParamsAux] at h
    cases hcip : _CreateInputParameter fname p ("arg" ++ toString (j + 1))
      with
    | error e => rw [hcip] at h; cases h
    | ok r =>
      rw [hcip] at h
      cases hrest : convertedParamsAux fname (j + 1) ys with
      | error e => rw [hrest] at h; cases h
      | ok rs =>
        rw [hrest] at h
        cases h
        refine ⟨[], convertSection py m n (j + 1) (ys.zip (rs.map Prod.fst)),
          r.1, r.2, hcip, ?_⟩
        simp only [List.map_cons, List.zip_cons_cons, convertSection,
          List.nil_append, List.length_nil, Nat.add_zero, List.zip]
  | cons x xs ih =>
    intro j cps h
    simp only [List.cons_append, convertedParamsAux, List.append_eq] at h
    cases hx : _CreateInputParameter fname x ("arg" ++ toString (j + 1)) with
    | error e => rw [hx] at h; cases h
    | ok rx =>
      rw [hx] at h
      cases hrest : convertedParamsAux fname (j + 1) (xs ++ p :: ys) with
      | error e => rw [hrest] at h; cases h
      | ok rs =>
        rw [hrest] at h
        cases h
        obtain ⟨pre, post, decl, getter, hcip, hconv⟩ := ih (j + 1) rs hrest
        have hidx : j + 1 + xs.length + 1 = j + (x :: xs).length + 1 := by
          simp [List.length_cons]
          omega
        rw [hidx] at hcip
        refine ⟨paramConvertBlock py m n j x rx.1 ++ pre, post, decl, getter,
          hcip, ?_⟩
        have hidx2 : j + 1 + xs.length = j + (x :: xs).length := by
          simp [List.length_cons]
          omega
        rw [← hidx2]
        simp only [List.cons_append, List.zip_cons_cons, List.map_cons,
          convertSection, List.append_eq, List.zip]
        simp only [List.zip] at hconv
        rw [hconv]
        simp [List.append_assoc]

/-- C2: for an optional parameter at position `i = |xs|` whose default is not
statically known to the generator (`unknownDefault`: the sentinel `"default"`
or a default containing `"inf"`), the wrapper emitted by `FunctionCall`
guards the conversion with `if (nargs > i)` and, inside it, returns
`DefaultArgMissedError` (naming the function and the parameter) when the slot
was not supplied (`!a[i]`) — that check being emitted exactly when a later
parameter exists (`i+1 < nargs`; for the last parameter `nargs > i` already
forces the slot to be supplied); when the default is a known literal, the
wrapper instead assigns the literal cast to the parameter's type. -/
theorem FunctionCall_default_arg_blocks (pyname wrapper doc : String)
    (catchEx : Bool) (call : CallArg) (pci : String)
    (tpc : List (String × Nat)) (f : FuncDecl) (ln : Nat)
    (ps : Option ParamDecl) (L : List String)
    (xs : List ParamDecl) (p : ParamDecl) (ys : List ParamDecl)
    (hp : f.params = xs ++ p :: ys)
    (_hdv : p.default_value ≠ "")
    (hmin : minargsOf f ≤ xs.length)
    (h : FunctionCall pyname wrapper doc catchEx call pci tpc f ln ps
      = .ok L) :
    ∃ pre post decl getter,
      _CreateInputParameter (pyCleanName pyname ++ " line " ++ toString ln) p
        ("arg" ++ toString (xs.length + 1)) = .ok (decl, getter) ∧
      L = pre
        ++ ([I ++ decl,
             I ++ "if (nargs > " ++ toString xs.length ++ ") \x7b"]
            ++ (if unknownDefault p then
                  (if xs.length + 1 < nargsOf f then
                     [I ++ I ++ "if (!a[" ++ toString xs.length
                        ++ "]) return DefaultArgMissedError(\""
                        ++ pyCleanName pyname ++ "\", names["
                        ++ toString xs.length ++ "]);"]
                   else [])
                  ++ [I ++ I ++ cvtStr xs.length
                        ("arg" ++ toString (xs.length + 1))
                        (pyCleanName pyname) (TypeStr p)]
                else
                  [I ++ I ++ "if (!a[" ++ toString xs.length ++ "]) "
                     ++ ("arg" ++ toString (xs.length + 1)) ++ " = ("
                     ++ TypeStr p ++ ")" ++ p.default_value ++ ";",
                   I ++ I ++ "else "
                     ++ cvtStr xs.length ("arg" ++ toString (xs.length + 1))
                         (pyCleanName pyname) (TypeStr p)])
            ++ [I ++ "\x7d"])
        ++ post := by
  obtain ⟨cm, pre0, cps, cp, hcm, hcps, hcp, hL⟩ := FunctionCall_ok_elim h
  have hsnd := ctxmgrCheck_ok_snd hcm
  rw [hsnd, hp] at hcps
  obtain ⟨cpre, cpost, decl, getter, hcip, hconv⟩ :=
    convertSection_emit (pyCleanName pyname ++ " line " ++ toString ln)
      (pyCleanName pyname) (minargsOf f) (nargsOf f) xs p ys 0 cps hcps
  rw [Nat.zero_add] at hcip hconv
  have hne0 : (nargsOf f != 0) = true := by
    have : 0 < nargsOf f := by
      unfold nargsOf
      rw [hp, List.length_append, List.length_cons]
      omega
    simp [bne_iff_ne]
    omega
  refine ⟨[""] ++ wrapperHeader wrapper doc f.classmethod (nargsOf f)
      ++ prependLines pre0
      ++ parseSection (pyCleanName pyname) f
      ++ cpre,
    cpost
      ++ retLocalsSection f
      ++ [I ++ "// Call actual C++ method."]
      ++ cp.1.map (fun s => I ++ s)
      ++ asyncPreSection f.async (nargsOf f)
      ++ ret0DeclSection f catchEx
      ++ catchTrySection catchEx
      ++ callSection (callParams pre0 cps f) cp.2 f catchEx
      ++ catchCatchSection catchEx
      ++ postcallSection pci (FuncReturnType f == "void")
      ++ asyncPostSection f.async (nargsOf f)
      ++ catchRaiseSection catchEx
      ++ returnSection cm.1 f tpc catchEx
      ++ ["\x7d"],
    decl, getter, hcip, ?_⟩
  subst hL
  simp only [functionCallLines]
  rw [if_pos hne0, hsnd, hp, hconv,
    paramConvertBlock_optional (pyCleanName pyname) (minargsOf f) (nargsOf f)
      xs.length p decl hmin]
  simp [List.append_assoc]

/-- `fd(a, b=<unknown>, c=0)`: an optional parameter whose default the
matcher could not determine. -/
def exFD : FuncDecl :=
  ⟨⟨"fd", "FD"⟩,
   [intParam "a" "", intParam "b" "default", intParam "c" "0"],
   [], false, false, "", true, false, false⟩

/-- C2 witness: the unknown-default parameter `b` of `exFD` at position 1. -/
theorem FunctionCall_default_arg_blocks_witness :
    ∃ pre post decl getter,
      _CreateInputParameter (pyCleanName "fd" ++ " line " ++ toString 5)
        (intParam "b" "default")
        ("arg" ++ toString ([intParam "a" ""].length + 1)) =
          .ok (decl, getter) ∧
      ((FunctionCall "fd" "w" "d" false (CallArg.str "FD") "" [] exFD 5
          none).toOption.getD []) = pre
        ++ ([I ++ decl,
             I ++ "if (nargs > " ++ toString [intParam "a" ""].length
               ++ ") \x7b"]
            ++ (if unknownDefault (intParam "b" "default") then
                  (if [intParam "a" ""].length + 1 < nargsOf exFD then
                     [I ++ I ++ "if (!a[" ++ toString [intParam "a" ""].length
                        ++ "]) return DefaultArgMissedError(\""
                        ++ pyCleanName "fd" ++ "\", names["
                        ++ toString [intParam "a" ""].length ++ "]);"]
                   else [])
                  ++ [I ++ I ++ cvtStr [intParam "a" ""].length
                        ("arg" ++ toString ([intParam "a" ""].length + 1))
                        (pyCleanName "fd") (TypeStr (intParam "b" "default"))]
                else
                  [I ++ I ++ "if (!a[" ++ toString [intParam "a" ""].length
                     ++ "]) "
                     ++ ("arg" ++ toString ([intParam "a" ""].length + 1))
                     ++ " = (" ++ TypeStr (intParam "b" "default") ++ ")"
                     ++ (intParam "b" "default").default_value ++ ";",
                   I ++ I ++ "else "
                     ++ cvtStr [intParam "a" ""].length
                         ("arg" ++ toString ([intParam "a" ""].length + 1))
                         (pyCleanName "fd")
                         (TypeStr (intParam "b" "default"))])
            ++ [I ++ "\x7d"])
        ++ post :=
  FunctionCall_default_arg_blocks "fd" "w" "d" false (CallArg.str "FD") ""
    [] exFD 5 none _ [intParam "a" ""] (intParam "b" "default")
    [intParam "c" "0"] rfl (by decide) (by decide) rfl

/-- C3: for a callable with `nret ≥ 2` return values, the wrapper emitted by
`FunctionCall` builds an ordered tuple of exactly `nret` elements
(`PyTuple_New(nret)`), converts the return values one at a time in index
order (`enum` over the returns), and on each conversion failure decrements
the partially built tuple and returns null. -/
theorem FunctionCall_multi_return_tuple (pyname wrapper doc : String)
    (catchEx : Bool) (call : CallArg) (pci : String)
    (tpc : List (String × Nat)) (f : FuncDecl) (ln : Nat)
    (ps : Option ParamDecl) (L : List String)
    (hret : 2 ≤ f.returns.length)
    (h : FunctionCall pyname wrapper doc catchEx call pci tpc f ln ps
      = .ok L) :
    ∃ pre post,
      L = pre
        ++ ([I ++ "// Convert return values to Python.",
             I ++ "PyObject* p, * result_tuple = PyTuple_New("
               ++ toString f.returns.length ++ ");",
             I ++ "if (result_tuple == nullptr) return nullptr;"]
            ++ f.returns.enum.flatMap (fun ir =>
                 [I ++ "if ((p=Clif_PyObjFrom(std::move(ret"
                    ++ toString ir.1 ++ "), " ++ Initializer ir.2.type tpc
                    ++ ")) == nullptr) \x7b",
                  I ++ I ++ "Py_DECREF(result_tuple);",
                  I ++ I ++ "return nullptr;",
                  I ++ "\x7d",
                  I ++ "PyTuple_SET_ITEM(result_tuple, " ++ toString ir.1
                    ++ ", p);"]))
        ++ post ∧
      f.returns.enum.length = f.returns.length ∧
      f.returns.enum.map Prod.fst = List.range f.returns.length := by
  obtain ⟨cm, pre0, cps, cp, hcm, hcps, hcp, hL⟩ := FunctionCall_ok_elim h
  have hrs : returnSection cm.1 f tpc catchEx =
      tupleReturnLines f tpc
      ++ postprocLines f.postproc cm.1
      ++ (if cm.1 == some "__enter__@" then
            [I ++ "Py_XDECREF(result_tuple);",
             I ++ "Py_INCREF(self);",
             I ++ "return self;"]
          else if cm.1 == some "__exit__@" then
            [I ++ "Py_XDECREF(result_tuple);",
             I ++ "Py_RETURN_NONE;"]
          else [I ++ "return result_tuple;"]) := by
    obtain ⟨r, rest, hr⟩ : ∃ r rest, f.returns = r :: rest := by
      cases hx : f.returns with
      | nil => rw [hx] at hret; simp at hret
      | cons r rest => exact ⟨r, rest, rfl⟩
    have hlen : (r :: rest).length > 1 := by
      rw [hr] at hret
      omega
    unfold returnSection
    rw [hr]
    dsimp only
    rw [if_pos ?_]
    simp only [Bool.or_eq_true, decide_eq_true_eq]
    exact Or.inl (Or.inl hlen)
  refine ⟨[""] ++ wrapperHeader wrapper doc f.classmethod (nargsOf f)
      ++ prependLines pre0
      ++ (if nargsOf f != 0 then
            parseSection cm.2 f
            ++ convertSection cm.2 (minargsOf f) (nargsOf f) 0
                 (f.params.zip (cps.map Prod.fst))
          else [])
      ++ retLocalsSection f
      ++ [I ++ "// Call actual C++ method."]
      ++ cp.1.map (fun s => I ++ s)
      ++ asyncPreSection f.async (nargsOf f)
      ++ ret0DeclSection f catchEx
      ++ catchTrySection catchEx
      ++ callSection (callParams pre0 cps f) cp.2 f catchEx
      ++ catchCatchSection catchEx
      ++ postcallSection pci (FuncReturnType f == "void")
      ++ asyncPostSection f.async (nargsOf f)
      ++ catchRaiseSection catchEx,
    postprocLines f.postproc cm.1
      ++ (if cm.1 == some "__enter__@" then
            [I ++ "Py_XDECREF(result_tuple);",
             I ++ "Py_INCREF(self);",
             I ++ "return self;"]
          else if cm.1 == some "__exit__@" then
            [I ++ "Py_XDECREF(result_tuple);",
             I ++ "Py_RETURN_NONE;"]
          else [I ++ "return result_tuple;"])
      ++ ["\x7d"], ?_, List.enum_length, List.enum_map_fst f.returns⟩
  subst hL
  simp only [functionCallLines]
  rw [hrs]
  simp only [tupleReturnLines]
  simp [List.append_assoc]

/-- C3 witness: the two-return callable `exF2` at a concrete input. -/
theorem FunctionCall_multi_return_tuple_witness :
    ∃ pre post,
      ((FunctionCall "h" "wH" "d" false (CallArg.str "H") "" [] exF2 9
          none).toOption.getD []) = pre
        ++ ([I ++ "// Convert return values to Python.",
             I ++ "PyObject* p, * result_tuple = PyTuple_New("
               ++ toString exF2.returns.length ++ ");",
             I ++ "if (result_tuple == nullptr) return nullptr;"]
            ++ exF2.returns.enum.flatMap (fun ir =>
                 [I ++ "if ((p=Clif_PyObjFrom(std::move(ret"
                    ++ toString ir.1 ++ "), " ++ Initializer ir.2.type []
                    ++ ")) == nullptr) \x7b",
                  I ++ I ++ "Py_DECREF(result_tuple);",
                  I ++ I ++ "return nullptr;",
                  I ++ "\x7d",
                  I ++ "PyTuple_SET_ITEM(result_tuple, " ++ toString ir.1
                    ++ ", p);"]))
        ++ post ∧
      exF2.returns.enum.length = exF2.returns.length ∧
      exF2.returns.enum.map Prod.fst = List.range exF2.returns.length :=
  FunctionCall_multi_return_tuple "h" "wH" "d" false (CallArg.str "H") "" []
    exF2 9 none _ (by decide) rfl

/-! ## Claim C4: zero-return callables. -/

/-- C4 counterexample: the context-manager enter hook `"__enter__@"` with
zero return values.  `FunctionCall` succeeds, yet the emitted body ends with
`Py_INCREF(self); return self;` and the `Py_RETURN_NONE;` line appears
nowhere — refuting "the emitted function body ends by producing the dynamic
none value" for every zero-return callable. -/
theorem FunctionCall_zero_returns_counterexample :
    exEnterF.returns = [] ∧
    FunctionCall "__enter__@" "wE" "void Enter()" false
      (CallArg.str "self->Enter") "" [] exEnterF 3 none = .ok exEnterLines ∧
    (I ++ "Py_RETURN_NONE;") ∉ exEnterLines ∧
    exEnterLines.getLast? = some "\x7d" ∧
    exEnterLines.reverse.tail.head? = some (I ++ "return self;") := by
  refine ⟨rfl, rfl, ?_, rfl, rfl⟩
  decide

/-- C4 (amended): for a callable with zero return values, `FunctionCall`
declares no return-value local (the extra-return locals section and the early
`ret0` declaration section are both empty, and the return type is rendered
`"void"`, so neither the call line nor the post-call line mentions `ret0`),
and the emitted body ends producing the dynamic none value — except when
`pyname` is the context-manager enter marker `"__enter__@"`, in which case it
ends by increfing and returning `self` (gen.py lines 537-539). -/
theorem FunctionCall_zero_returns_amended (pyname wrapper doc : String)
    (catchEx : Bool) (call : CallArg) (pci : String)
    (tpc : List (String × Nat)) (f : FuncDecl) (ln : Nat)
    (ps : Option ParamDecl) (L : List String)
    (hret : f.returns = [])
    (h : FunctionCall pyname wrapper doc catchEx call pci tpc f ln ps
      = .ok L) :
    FuncReturnType f = "void" ∧
    retLocalsSection f = [] ∧
    ret0DeclSection f catchEx = [] ∧
    ∃ pre, L = pre
      ++ (if pyname = "__enter__@" then
            [I ++ "Py_INCREF(self);", I ++ "return self;"]
          else [I ++ "Py_RETURN_NONE;"])
      ++ ["\x7d"] := by
  have hvoid : FuncReturnType f = "void" := by
    unfold FuncReturnType
    rw [hret]
    simp
  have hlocals : retLocalsSection f = [] := by
    unfold retLocalsSection
    rw [hret]
    rfl
  have hdecl : ret0DeclSection f catchEx = [] := by
    unfold ret0DeclSection
    rw [if_neg ?_]
    simp [hvoid]
  obtain ⟨cm, pre0, cps, cp, hcm, hcps, hcp, hL⟩ := FunctionCall_ok_elim h
  have hrs : returnSection cm.1 f tpc catchEx =
      (if pyname = "__enter__@" then
        [I ++ "Py_INCREF(self);", I ++ "return self;"]
      else [I ++ "Py_RETURN_NONE;"]) := by
    unfold returnSection
    rw [hret]
    dsimp only
    by_cases hpy : pyname = "__enter__@"
    · rw [if_pos hpy, if_pos ?_]
      rw [beq_iff_eq]
      exact (ctxmgrCheck_ok_enter hcm).mpr hpy
    · rw [if_neg hpy, if_neg ?_]
      intro hc
      rw [beq_iff_eq] at hc
      exact hpy ((ctxmgrCheck_ok_enter hcm).mp hc)
  refine ⟨hvoid, hlocals, hdecl,
    [""] ++ wrapperHeader wrapper doc f.classmethod (nargsOf f)
      ++ prependLines pre0
      ++ (if nargsOf f != 0 then
            parseSection cm.2 f
            ++ convertSection cm.2 (minargsOf f) (nargsOf f) 0
                 (f.params.zip (cps.map Prod.fst))
          else [])
      ++ retLocalsSection f
      ++ [I ++ "// Call actual C++ method."]
      ++ cp.1.map (fun s => I ++ s)
      ++ asyncPreSection f.async (nargsOf f)
      ++ ret0DeclSection f catchEx
      ++ catchTrySection catchEx
      ++ callSection (callParams pre0 cps f) cp.2 f catchEx
      ++ catchCatchSection catchEx
      ++ postcallSection pci (FuncReturnType f == "void")
      ++ asyncPostSection f.async (nargsOf f)
      ++ catchRaiseSection catchEx, ?_⟩
  subst hL
  simp only [functionCallLines]
  rw [hrs]

/-- C4 witness: the plain zero-return callable `exF0` ends with the none
result. -/
theorem FunctionCall_zero_returns_amended_witness :
    FuncReturnType exF0 = "void" ∧
    retLocalsSection exF0 = [] ∧
    ret0DeclSection exF0 false = [] ∧
    ∃ pre, ((FunctionCall "g" "wG" "d" false (CallArg.str "G") "" [] exF0 3
        none).toOption.getD []) = pre
      ++ (if ("g" : String) = "__enter__@" then
            [I ++ "Py_INCREF(self);", I ++ "return self;"]
          else [I ++ "Py_RETURN_NONE;"])
      ++ ["\x7d"] :=
  FunctionCall_zero_returns_amended "g" "wG" "d" false (CallArg.str "G") ""
    [] exF0 3 none _ rfl rfl
